import Mathlib

/-!
Shallow embedding of `check_temperature.py` (repository oksmith/scripts).

The script samples the CPU package temperature, keeps a rolling history of
the last `WINDOW_SIZE` observations in a JSON file, and alerts when the
windowed average exceeds `THRESHOLD`.

Modelling conventions:
* Python/JSON values are the inductive `PyVal`; a Python `dict` is an
  association list with distinct keys not enforced (lookup takes the first
  binding, as `json.load` would produce unique keys anyway).
* Python `float` arithmetic is modelled exactly over `ℚ`.
* Python exceptions that the code lets escape are modelled with
  `Except PyErr`; `isinstance(x, (int, float))` is true for Python `bool`
  values as well, since `bool` is a subclass of `int`.
* `history[-w:]` is Python slicing: for `w = 0` it is the whole list.
-/

namespace CheckTemp

/-- A Python/JSON value as it can occur in the history file. -/
inductive PyVal where
  | none
  | bool (b : Bool)
  | int (n : ℤ)
  | float (q : ℚ)
  | str (s : String)
  | list (xs : List PyVal)
  | dict (kvs : List (String × PyVal))

/-- Exceptions that can escape the modelled code. -/
inductive PyErr where
  | attributeError
  | zeroDivisionError
  deriving DecidableEq, Repr

/-- `d.get(k)` on a Python dict: the bound value, or `None` when absent. -/
def dictGet (kvs : List (String × PyVal)) (k : String) : PyVal :=
  match kvs.lookup k with
  | Option.some v => v
  | Option.none => PyVal.none

/-- `isinstance(v, (int, float))`: true for `int`, `float` and also `bool`,
because Python `bool` is a subclass of `int`. -/
def pyIsIntFloat : PyVal → Bool
  | .bool _ => true
  | .int _ => true
  | .float _ => true
  | _ => false

/-- Numeric value of a Python number; `True == 1` and `False == 0`. -/
def pyToRat : PyVal → ℚ
  | .bool b => if b then 1 else 0
  | .int n => (n : ℚ)
  | .float q => q
  | _ => 0

/-- Whether a value is a Python dict. -/
def isDict : PyVal → Bool
  | .dict _ => true
  | _ => false

/-- Spec-level reading of an observation's temperature: the value of the
`"temperature"` field when it is an actual number (`int` or `float`; a JSON
boolean is not a number). `none` when the entry is not an object, the field
is missing, or the field is not numeric. -/
def entryTemp : PyVal → Option ℚ
  | .dict kvs =>
    match dictGet kvs "temperature" with
    | .int n => Option.some ((n : ℚ))
    | .float q => Option.some q
    | _ => Option.none
  | _ => Option.none

/-- Python slice `xs[-w:]`: for `w = 0` this is `xs[0:] = xs`, otherwise the
last `min w (len xs)` elements. -/
def pySliceLast {α : Type} (w : Nat) (xs : List α) : List α :=
  if w = 0 then xs else xs.drop (xs.length - w)

/-- The list comprehension
`[e["temperature"] for e in window if isinstance(e.get("temperature"), (int, float))]`:
collects the numeric temperatures, raising `AttributeError` at the first
element that is not a dict (no `.get` attribute). -/
def collectTemps : List PyVal → Except PyErr (List ℚ)
  | [] => Except.ok []
  | PyVal.dict kvs :: rest =>
    match collectTemps rest with
    | Except.ok ts =>
      if pyIsIntFloat (dictGet kvs "temperature") then
        Except.ok (pyToRat (dictGet kvs "temperature") :: ts)
      else
        Except.ok ts
    | Except.error e => Except.error e
  | _ :: _ => Except.error PyErr.attributeError

/-- `check_and_alert(history, window_size, threshold)`: true (and alert sent)
iff the average temperature over the last `window_size` entries exceeds
`threshold`; skips alerting when the history is short or the window has
incomplete temperature data. `sum(temps) / len(temps)` raises
`ZeroDivisionError` when `temps` is empty (reachable only for
`window_size = 0`). -/
def check_and_alert (history : List PyVal) (window_size : Nat) (threshold : ℚ) :
    Except PyErr Bool :=
  if history.length < window_size then Except.ok false
  else
    match collectTemps (pySliceLast window_size history) with
    | Except.error e => Except.error e
    | Except.ok temps =>
      if temps.length < window_size then Except.ok false
      else if temps.length = 0 then Except.error PyErr.zeroDivisionError
      else Except.ok (decide (temps.sum / (temps.length : ℚ) > threshold))

/-- State of the history file as seen by `load_history`. -/
inductive FileState where
  | missing
  | unreadable
  | json (v : PyVal)

/-- `load_history(path)`: empty when the file does not exist, cannot be read
or parsed as JSON, or parses to a non-list; otherwise the parsed list as is. -/
def load_history : FileState → List PyVal
  | .missing => []
  | .unreadable => []
  | .json (.list xs) => xs
  | .json _ => []

/-- `save_history(path, history)`: the write outcome is an optional failure
message; the function swallows the exception and returns the lines printed
to stderr. It never raises. -/
def save_history (writeFailure : Option String) : List String :=
  match writeFailure with
  | Option.none => []
  | Option.some exc => ["Failed to write history file: " ++ exc]

/-! ### TemperatureParser

`parse_cpu_temperatures` scans `sensors_output.splitlines()` for the first
line containing `"Package id 0:"` and applies
`re.search(r"\+(\d+(?:\.\d+)?)Â°C", line)` to it.

The pattern in the source file is mojibake: the bytes `C3 82 C2 B0` are the
UTF-8 double encoding of the degree sign, so the regex requires the two
characters U+00C2 U+00B0 (`Â°`) before `C`, not the degree sign U+00B0
alone. We embed the pattern exactly as the source has it. -/

/-- U+00C2, the stray `Â` in the source's regex. -/
def mojA : Char := 'Â'

/-- U+00B0, the degree sign. -/
def degC : Char := '°'

/-- Maximal run of ASCII digits at the head of the list (what the greedy
`\d+` consumes; sensor output is ASCII). Returns the run and the rest. -/
def digitSpan : List Char → List Char × List Char
  | [] => ([], [])
  | c :: rest =>
    if c.isDigit then
      let (d, r) := digitSpan rest
      (c :: d, r)
    else
      ([], c :: rest)

/-- Try to match `\+(\d+(?:\.\d+)?)Â°C` at the head of `s`; on success
return the captured group as (integer digits, optional fraction digits).
For this pattern greedy maximal-munch is equivalent to full backtracking:
shortening `\d+` always leaves a digit where `.`, `Â` or the end of the
match is required. -/
def matchTempAt (s : List Char) : Option (List Char × Option (List Char)) :=
  match s with
  | '+' :: rest =>
    let (d, r1) := digitSpan rest
    if d.isEmpty then Option.none
    else
      match r1 with
      | '.' :: r2 =>
        let (f, r3) := digitSpan r2
        if f.isEmpty then Option.none
        else
          match r3 with
          | c1 :: c2 :: 'C' :: _ =>
            if c1 = mojA ∧ c2 = degC then Option.some (d, Option.some f)
            else Option.none
          | _ => Option.none
      | c1 :: c2 :: 'C' :: _ =>
        if c1 = mojA ∧ c2 = degC then Option.some (d, Option.none)
        else Option.none
      | _ => Option.none
  | _ => Option.none

/-- `re.search`: try the pattern at every position, leftmost match wins. -/
def searchTemp : List Char → Option (List Char × Option (List Char))
  | [] => Option.none
  | c :: rest =>
    match matchTempAt (c :: rest) with
    | Option.some cap => Option.some cap
    | Option.none => searchTemp rest

/-- Numeric value of a digit run. -/
def digitsToNat (ds : List Char) : Nat :=
  ds.foldl (fun a c => 10 * a + (c.toNat - '0'.toNat)) 0

/-- `float(match.group(1))` on a string shaped `\d+(\.\d+)?`; this never
raises `ValueError`, so the `except ValueError: return []` branch of the
source is dead code. -/
def capToRat : List Char × Option (List Char) → ℚ
  | (d, Option.none) => (digitsToNat d : ℚ)
  | (d, Option.some f) => (digitsToNat d : ℚ) + (digitsToNat f : ℚ) / ((10 : ℚ) ^ f.length)

/-- Substring test, `"Package id 0:" in line`. -/
def containsSub (pat : List Char) : List Char → Bool
  | [] => decide (pat = [])
  | c :: rest => pat.isPrefixOf (c :: rest) || containsSub pat rest

/-- The literal label `"Package id 0:"`. -/
def labelChars : List Char := "Package id 0:".toList

/-- `str.splitlines`, restricted to the line breaks that occur in sensor
output: `\n`, `\r\n` and `\r`. Accumulator holds the current line reversed. -/
def splitLinesAux : List Char → List Char → List (List Char)
  | [], acc => [acc.reverse]
  | '\r' :: '\n' :: rest, acc => acc.reverse :: splitLinesAux rest []
  | '\n' :: rest, acc => acc.reverse :: splitLinesAux rest []
  | '\r' :: rest, acc => acc.reverse :: splitLinesAux rest []
  | c :: rest, acc => splitLinesAux rest (c :: acc)

/-- `str.splitlines`: a trailing line break produces no empty final line. -/
def splitlinesC (s : List Char) : List (List Char) :=
  let ls := splitLinesAux s []
  if ls.getLast? = Option.some [] then ls.dropLast else ls

/-- The per-line body of `parse_cpu_temperatures` once the labeled line is
found: a single-element list on a regex match, else empty. -/
def parseLabeledLine (line : List Char) : List ℚ :=
  match searchTemp line with
  | Option.some cap => [capToRat cap]
  | Option.none => []

/-- The loop of `parse_cpu_temperatures` over the split lines: the first
line containing the label decides the result; later lines are never
reached. -/
def parseTempsLines : List (List Char) → List ℚ
  | [] => []
  | l :: ls =>
    if containsSub labelChars l then parseLabeledLine l
    else parseTempsLines ls

/-- `parse_cpu_temperatures(sensors_output)`. -/
def parse_cpu_temperatures (sensors_output : String) : List ℚ :=
  parseTempsLines (splitlinesC sensors_output.toList)

/-! ### Orchestrator (`main`) -/

/-- Module constant `THRESHOLD = 90.0`. -/
def THRESHOLD : ℚ := 90

/-- Module constant `WINDOW_SIZE = 3`. -/
def WINDOW_SIZE : Nat := 3

/-- The observation dict appended by `main`. -/
def mkObservation (timestamp : String) (temp : ℚ) : PyVal :=
  PyVal.dict
    [("timestamp", PyVal.str timestamp),
     ("temperature", PyVal.float temp),
     ("over_threshold", PyVal.bool (decide (temp > THRESHOLD))),
     ("threshold", PyVal.float THRESHOLD)]

/-- `if len(history) > WINDOW_SIZE: history = history[-WINDOW_SIZE:]`. -/
def truncateHistory (h : List PyVal) : List PyVal :=
  if h.length > WINDOW_SIZE then pySliceLast WINDOW_SIZE h else h

/-- The history value `main` passes to `save_history`: the loaded history
with the new observation appended, truncated to the window bound. -/
def persistedHistory (loaded : List PyVal) (obs : PyVal) : List PyVal :=
  truncateHistory (loaded ++ [obs])

/-- `main()`. External effects are parameters: `sensor` is the outcome of
`run_sensors` (error message on `RuntimeError`), `loaded` the result of
`load_history`, `ts` the current timestamp string, and `writeFailure` the
outcome of the history write inside `save_history`. Returns the exit code,
or the exception that escapes `main`. Notifications and stdout/stderr text
are side channels that do not influence the result. -/
def main (sensor : Except String String) (loaded : List PyVal) (ts : String)
    (writeFailure : Option String) : Except PyErr Nat :=
  match sensor with
  | Except.error _ => Except.ok 1
  | Except.ok output =>
    match parse_cpu_temperatures output with
    | [] => Except.ok 2
    | current_temp :: _ =>
      let history := persistedHistory loaded (mkObservation ts current_temp)
      let _stderr := save_history writeFailure
      match check_and_alert history WINDOW_SIZE THRESHOLD with
      | Except.error e => Except.error e
      | Except.ok _alerted => Except.ok 0

/-! ### Auxiliary definitions for the statements -/

/-- `e.get("temperature")` seen as a total function: `None` when `e` is not
a dict (the code would raise there; used only to phrase hypotheses). -/
def tempField : PyVal → PyVal
  | .dict kvs => dictGet kvs "temperature"
  | _ => PyVal.none

/-- Whether a value is a Python list. -/
def isList : PyVal → Bool
  | .list _ => true
  | _ => false

/-- `len(history)`: reading the length leaves the list unchanged. -/
def opLen {α : Type} (xs : List α) : Nat × List α := (xs.length, xs)

/-- `history[-w:]`: slicing builds a new list and leaves the source list
unchanged. -/
def opSlice {α : Type} (w : Nat) (xs : List α) : List α × List α :=
  (pySliceLast w xs, xs)

/-- `check_and_alert` with the `history` argument threaded explicitly
through every operation the source applies to it (`len`, the slice, and
iteration via `collectTemps`, all non-mutating); the second component is
the history list as it is left behind. -/
def check_and_alert_state (history : List PyVal) (window_size : Nat)
    (threshold : ℚ) : Except PyErr Bool × List PyVal :=
  let (n, history) := opLen history
  if n < window_size then (Except.ok false, history)
  else
    let (window, history) := opSlice window_size history
    match collectTemps window with
    | Except.error e => (Except.error e, history)
    | Except.ok temps =>
      if temps.length < window_size then (Except.ok false, history)
      else if temps.length = 0 then (Except.error PyErr.zeroDivisionError, history)
      else (Except.ok (decide (temps.sum / (temps.length : ℚ) > threshold)), history)

/-- The spec's triggering example: window `[88.0, 92.0, 91.0]`. -/
def exHigh : List PyVal :=
  [mkObservation "t1" 88, mkObservation "t2" 92, mkObservation "t3" 91]

/-- The spec's non-triggering example: window `[88.0, 89.0, 90.0]`. -/
def exLow : List PyVal :=
  [mkObservation "t1" 88, mkObservation "t2" 89, mkObservation "t3" 90]

/-- A window whose first entry has a JSON boolean `temperature`: not a
number in the spec's data model, but numeric for `isinstance` since Python
`bool` is a subclass of `int`. -/
def exBool : List PyVal :=
  [PyVal.dict [("temperature", PyVal.bool true)],
   PyVal.dict [("temperature", PyVal.int 100)],
   PyVal.dict [("temperature", PyVal.int 200)]]

/-- A window whose first entry has a string `temperature`. -/
def exStrTemp : List PyVal :=
  [PyVal.dict [("temperature", PyVal.str "hot")],
   PyVal.dict [("temperature", PyVal.int 100)],
   PyVal.dict [("temperature", PyVal.int 200)]]

/-- A loadable history file content that is a JSON list of numbers, not of
observation objects. -/
def exBadHistory : List PyVal := [PyVal.int 1, PyVal.int 2, PyVal.int 3]

/-- Sensor output in the double-encoded form the source's regex actually
matches. -/
def exSensorMoji : String := "Package id 0: +95.0Â°C"

/-- Decidable equality on `Except`, so that concrete runs can be settled
by `decide`. -/
instance {ε α : Type} [DecidableEq ε] [DecidableEq α] : DecidableEq (Except ε α) :=
  fun a b =>
    match a, b with
    | .error e, .error f =>
      if h : e = f then .isTrue (congrArg Except.error h)
      else .isFalse (fun hc => h (Except.error.inj hc))
    | .ok x, .ok y =>
      if h : x = y then .isTrue (congrArg Except.ok h)
      else .isFalse (fun hc => h (Except.ok.inj hc))
    | .error _, .ok _ => .isFalse (fun hc => Except.noConfusion hc)
    | .ok _, .error _ => .isFalse (fun hc => Except.noConfusion hc)

/-! ### Helper lemmas -/

theorem length_pySliceLast {α : Type} (w : Nat) (xs : List α) (hw : w ≠ 0)
    (hle : w ≤ xs.length) : (pySliceLast w xs).length = w := by
  unfold pySliceLast
  rw [if_neg hw, List.length_drop]
  omega

theorem mem_pySliceLast {α : Type} {w : Nat} {xs : List α} {e : α}
    (he : e ∈ pySliceLast w xs) : e ∈ xs := by
  unfold pySliceLast at he
  split at he
  · exact he
  · exact List.drop_subset _ _ he

theorem mem_truncateHistory {e : PyVal} {h : List PyVal}
    (he : e ∈ truncateHistory h) : e ∈ h := by
  unfold truncateHistory at he
  split at he
  · exact mem_pySliceLast he
  · exact he

/-- On a list of entries that all have an actual numeric temperature, the
comprehension succeeds and keeps every entry. -/
theorem collectTemps_numeric :
    ∀ l : List PyVal, (∀ e ∈ l, (entryTemp e).isSome) →
      collectTemps l = Except.ok (l.filterMap entryTemp) ∧
      (l.filterMap entryTemp).length = l.length := by
  intro l
  induction l with
  | nil => intro _; exact ⟨rfl, rfl⟩
  | cons e rest ih =>
    intro hall
    have he : (entryTemp e).isSome := hall e (List.mem_cons_self e rest)
    obtain ⟨hc, hl⟩ := ih (fun x hx => hall x (List.mem_cons_of_mem e hx))
    cases e with
    | dict kvs =>
      cases hdg : dictGet kvs "temperature" with
      | int n =>
        constructor
        · simp [collectTemps, hc, hdg, pyIsIntFloat, List.filterMap_cons, entryTemp, pyToRat]
        · simp [List.filterMap_cons, entryTemp, hdg, hl]
      | float q =>
        constructor
        · simp [collectTemps, hc, hdg, pyIsIntFloat, List.filterMap_cons, entryTemp, pyToRat]
        · simp [List.filterMap_cons, entryTemp, hdg, hl]
      | _ => simp [entryTemp, hdg] at he
    | _ => simp [entryTemp] at he

/-- On a list of dict entries the comprehension succeeds, never grows the
list, and drops at least one entry when one temperature fails the
`isinstance` test. -/
theorem collectTemps_dicts :
    ∀ l : List PyVal, (∀ e ∈ l, isDict e = true) →
      ∃ ts, collectTemps l = Except.ok ts ∧ ts.length ≤ l.length ∧
        ((∃ e ∈ l, pyIsIntFloat (tempField e) = false) → ts.length < l.length) := by
  intro l
  induction l with
  | nil =>
    intro _
    exact ⟨[], rfl, Nat.le_refl 0, by simp⟩
  | cons e rest ih =>
    intro hall
    have he : isDict e = true := hall e (List.mem_cons_self e rest)
    obtain ⟨ts, hc, hle, hstrict⟩ := ih (fun x hx => hall x (List.mem_cons_of_mem e hx))
    cases e with
    | dict kvs =>
      by_cases hnum : pyIsIntFloat (dictGet kvs "temperature") = true
      · refine ⟨pyToRat (dictGet kvs "temperature") :: ts, ?_, ?_, ?_⟩
        · simp [collectTemps, hc, hnum]
        · simpa using Nat.succ_le_succ hle
        · rintro ⟨x, hx, hxf⟩
          rcases List.mem_cons.mp hx with hx | hx
          · subst hx
            simp [tempField, hnum] at hxf
          · have := hstrict ⟨x, hx, hxf⟩
            simp only [List.length_cons]
            omega
      · refine ⟨ts, ?_, ?_, ?_⟩
        · simp [collectTemps, hc, hnum]
        · simp only [List.length_cons]
          omega
        · intro _
          simp only [List.length_cons]
          omega
    | _ => simp [isDict] at he

/-- Over a history of dicts and a positive window size, `check_and_alert`
raises no exception. -/
theorem check_and_alert_ok_of_dicts (h : List PyVal) (w : Nat) (t : ℚ)
    (hw : 0 < w) (hd : ∀ e ∈ h, isDict e = true) :
    ∃ b, check_and_alert h w t = Except.ok b := by
  unfold check_and_alert
  by_cases hlt : h.length < w
  · rw [if_pos hlt]
    exact ⟨false, rfl⟩
  · rw [if_neg hlt]
    obtain ⟨ts, hts, hlen, _⟩ :=
      collectTemps_dicts (pySliceLast w h) (fun e he => hd e (mem_pySliceLast he))
    rw [hts]
    dsimp only
    by_cases h2 : ts.length < w
    · rw [if_pos h2]
      exact ⟨false, rfl⟩
    · rw [if_neg h2, if_neg (by omega)]
      exact ⟨_, rfl⟩

/-! ### Claims -/

/-- C1: for every history whose last `window_size` entries all carry
numeric temperature values (with at least `window_size` entries present and
a positive window), `check_and_alert` returns triggered exactly when the
arithmetic mean of those `window_size` temperatures strictly exceeds the
threshold; in particular window `[88.0, 92.0, 91.0]` with threshold `90.0`
triggers and `[88.0, 89.0, 90.0]` does not. -/
theorem C1_alert_iff_mean_gt_threshold :
    (∀ (history : List PyVal) (w : Nat) (t : ℚ), 0 < w → w ≤ history.length →
      (∀ e ∈ pySliceLast w history, (entryTemp e).isSome) →
      check_and_alert history w t =
        Except.ok
          (decide (((pySliceLast w history).filterMap entryTemp).sum / (w : ℚ) > t))) ∧
    check_and_alert exHigh 3 THRESHOLD = Except.ok true ∧
    check_and_alert exLow 3 THRESHOLD = Except.ok false := by
  refine ⟨?_, ?_, ?_⟩
  case refine_2 =>
    have hq : ((88:ℚ) + (92 + (91 + 0))) / ((3:Nat):ℚ) > THRESHOLD := by
      norm_num [THRESHOLD]
    rw [show check_and_alert exHigh 3 THRESHOLD =
        Except.ok (decide (((88:ℚ) + (92 + (91 + 0))) / ((3:Nat):ℚ) > THRESHOLD)) from rfl,
      decide_eq_true hq]
  case refine_3 =>
    have hq : ¬ (((88:ℚ) + (89 + (90 + 0))) / ((3:Nat):ℚ) > THRESHOLD) := by
      norm_num [THRESHOLD]
    rw [show check_and_alert exLow 3 THRESHOLD =
        Except.ok (decide (((88:ℚ) + (89 + (90 + 0))) / ((3:Nat):ℚ) > THRESHOLD)) from rfl,
      decide_eq_false hq]
  intro history w t hw hle hnum
  obtain ⟨hc, hl⟩ := collectTemps_numeric (pySliceLast w history) hnum
  have hwlen : (pySliceLast w history).length = w :=
    length_pySliceLast w history (by omega) hle
  unfold check_and_alert
  rw [if_neg (by omega), hc]
  dsimp only
  rw [hl, hwlen, if_neg (by omega), if_neg (by omega)]

/-- C1 witness: the theorem applied to the triggering example window. -/
theorem C1_witness :
    check_and_alert exHigh 3 THRESHOLD =
      Except.ok
        (decide (((pySliceLast 3 exHigh).filterMap entryTemp).sum / ((3 : Nat) : ℚ) > THRESHOLD)) :=
  C1_alert_iff_mean_gt_threshold.1 exHigh 3 THRESHOLD (by decide) (by decide) (by decide)

/-- C2: a history shorter than the window size never triggers. -/
theorem C2_short_history_never_triggers :
    ∀ (history : List PyVal) (w : Nat) (t : ℚ), history.length < w →
      check_and_alert history w t = Except.ok false := by
  intro history w t hlt
  unfold check_and_alert
  rw [if_pos hlt]

/-- C2 witness: the empty history with window size 1. -/
theorem C2_witness : check_and_alert [] 1 0 = Except.ok false :=
  C2_short_history_never_triggers [] 1 0 (by decide)

/-- C3 counterexample: `exBool`'s first entry carries `temperature: true`,
which is not a numeric temperature (so the claim demands not-triggered),
yet `check_and_alert` triggers: Python `bool` passes the `isinstance`
test and `True` contributes `1` to the average `(1+100+200)/3 > 90`. -/
theorem C3_counterexample :
    exBool.length = 3 ∧
    (∃ e ∈ pySliceLast 3 exBool, entryTemp e = Option.none) ∧
    check_and_alert exBool 3 THRESHOLD = Except.ok true := by
  refine ⟨by decide, by decide, ?_⟩
  have hq : ((1:ℚ) + (((100:ℤ):ℚ) + (((200:ℤ):ℚ) + 0))) / ((3:Nat):ℚ) > THRESHOLD := by
    push_cast
    norm_num [THRESHOLD]
  rw [show check_and_alert exBool 3 THRESHOLD =
      Except.ok
        (decide (((1:ℚ) + (((100:ℤ):ℚ) + (((200:ℤ):ℚ) + 0))) / ((3:Nat):ℚ) > THRESHOLD)) from rfl,
    decide_eq_true hq]

/-- C3 amended: for histories of length at least `window_size > 0` whose
last `window_size` entries are all dicts, if at least one of those entries
has a temperature that fails Python's `isinstance(·, (int, float))` test
(missing, or not an int, float or bool — booleans count as numeric since
`bool` is a subclass of `int`), `check_and_alert` returns not-triggered
even when the mean of the remaining valid temperatures exceeds the
threshold. -/
theorem C3_incomplete_window_never_triggers :
    ∀ (history : List PyVal) (w : Nat) (t : ℚ), 0 < w → w ≤ history.length →
      (∀ e ∈ pySliceLast w history, isDict e = true) →
      (∃ e ∈ pySliceLast w history, pyIsIntFloat (tempField e) = false) →
      check_and_alert history w t = Except.ok false := by
  intro history w t hw hle hdict hbad
  obtain ⟨ts, hts, _, hstrict⟩ := collectTemps_dicts (pySliceLast w history) hdict
  have hwlen : (pySliceLast w history).length = w :=
    length_pySliceLast w history (by omega) hle
  have hlt : ts.length < w := by
    have := hstrict hbad
    omega
  unfold check_and_alert
  rw [if_neg (by omega), hts]
  dsimp only
  rw [if_pos hlt]

/-- C3 witness: the amended theorem applied to a window whose first entry
has a string temperature; the remaining valid temperatures average to 150,
above the threshold, yet no alert fires. -/
theorem C3_witness : check_and_alert exStrTemp 3 THRESHOLD = Except.ok false :=
  C3_incomplete_window_never_triggers exStrTemp 3 THRESHOLD (by decide) (by decide)
    (by decide) (by decide)

/-- C5 counterexample: a record holding the JSON list `[1, 2]`, whose
elements are not observation objects, is returned as is by `load_history`
rather than as an empty History — the code only checks
`isinstance(data, list)`, not the shape of the elements. -/
theorem C5_counterexample :
    load_history (FileState.json (PyVal.list [PyVal.int 1, PyVal.int 2])) =
      [PyVal.int 1, PyVal.int 2] ∧
    ([PyVal.int 1, PyVal.int 2] : List PyVal) ≠ [] ∧
    isDict (PyVal.int 1) = false := by
  refine ⟨rfl, by simp, rfl⟩

/-- C5 amended: `load_history` returns an empty History when the record is
missing, unreadable or parses to a non-list JSON value; a JSON list is
returned as is, even when its elements are not observation objects. -/
theorem C5_load_list_passthrough :
    ∀ (v : PyVal) (xs : List PyVal),
      load_history FileState.missing = [] ∧
      load_history FileState.unreadable = [] ∧
      (isList v = false → load_history (FileState.json v) = []) ∧
      load_history (FileState.json (PyVal.list xs)) = xs := by
  intro v xs
  refine ⟨rfl, rfl, fun h => ?_, rfl⟩
  cases v
  case list => simp [isList] at h
  all_goals rfl

/-- C5 witness: the amended theorem applied to a non-list JSON value and a
list of non-object elements. -/
theorem C5_witness :
    load_history (FileState.json (PyVal.int 0)) = [] ∧
    load_history (FileState.json (PyVal.list [PyVal.int 1])) = [PyVal.int 1] :=
  ⟨(C5_load_list_passthrough (PyVal.int 0) []).2.2.1 (by decide),
   (C5_load_list_passthrough (PyVal.int 0) [PyVal.int 1]).2.2.2⟩

/-- C8: `load_history` is a total function (the code catches every
exception): a missing record, an unreadable/invalid-JSON record, and a
JSON value that is not a list all yield an empty History. -/
theorem C8_load_fail_open :
    load_history FileState.missing = [] ∧
    load_history FileState.unreadable = [] ∧
    ∀ v : PyVal, isList v = false → load_history (FileState.json v) = [] := by
  refine ⟨rfl, rfl, fun v h => ?_⟩
  cases v
  case list => simp [isList] at h
  all_goals rfl

/-- C8 witness: invalid-content cases evaluated at concrete values. -/
theorem C8_witness : load_history (FileState.json (PyVal.str "oops")) = [] :=
  C8_load_fail_open.2.2 (PyVal.str "oops") (by decide)

/-- C7: the history `main` persists is always at most `WINDOW_SIZE` long,
and as soon as appending the new observation exceeds the bound it is
exactly the most recent `WINDOW_SIZE` entries, the oldest dropped from the
front. -/
theorem C7_persisted_history_bounded :
    ∀ (loaded : List PyVal) (obs : PyVal),
      (persistedHistory loaded obs).length ≤ WINDOW_SIZE ∧
      (WINDOW_SIZE < (loaded ++ [obs]).length →
        persistedHistory loaded obs =
          (loaded ++ [obs]).drop ((loaded ++ [obs]).length - WINDOW_SIZE) ∧
        (persistedHistory loaded obs).length = WINDOW_SIZE) := by
  intro loaded obs
  by_cases hgt : WINDOW_SIZE < (loaded ++ [obs]).length
  · have hne : ¬ WINDOW_SIZE = 0 := by decide
    have hresult : persistedHistory loaded obs =
        (loaded ++ [obs]).drop ((loaded ++ [obs]).length - WINDOW_SIZE) := by
      unfold persistedHistory truncateHistory pySliceLast
      rw [if_pos hgt, if_neg hne]
    have hlen : (persistedHistory loaded obs).length = WINDOW_SIZE := by
      rw [hresult, List.length_drop]
      omega
    exact ⟨by omega, fun _ => ⟨hresult, hlen⟩⟩
  · constructor
    · unfold persistedHistory truncateHistory
      rw [if_neg hgt]
      omega
    · intro hcontra
      exact absurd hcontra hgt

/-- C7 witness: appending a fourth entry to a three-entry history truncates
to the most recent three. -/
theorem C7_witness :
    (persistedHistory exBadHistory (PyVal.int 4)).length ≤ WINDOW_SIZE ∧
    persistedHistory exBadHistory (PyVal.int 4) =
      (exBadHistory ++ [PyVal.int 4]).drop
        ((exBadHistory ++ [PyVal.int 4]).length - WINDOW_SIZE) ∧
    (persistedHistory exBadHistory (PyVal.int 4)).length = WINDOW_SIZE :=
  ⟨(C7_persisted_history_bounded exBadHistory (PyVal.int 4)).1,
   (C7_persisted_history_bounded exBadHistory (PyVal.int 4)).2 (by decide)⟩

/-- C9: a failed history write is non-fatal: `main`'s outcome with any
write failure equals its outcome with a successful write, and
`save_history` reports the failure on its diagnostic channel (stderr). -/
theorem C9_save_failure_nonfatal :
    ∀ (sensor : Except String String) (loaded : List PyVal) (ts : String)
      (writeFailure : Option String),
      main sensor loaded ts writeFailure = main sensor loaded ts Option.none ∧
      ∀ m, save_history (Option.some m) = ["Failed to write history file: " ++ m] := by
  intro sensor loaded ts writeFailure
  exact ⟨by cases sensor <;> rfl, fun m => rfl⟩

/-- C10: `check_and_alert` leaves the history it is given unchanged — with
every operation the source applies to the history threaded through an
explicit state, the final state equals the initial one, and the computed
result is that of `check_and_alert`. -/
theorem C10_evaluate_preserves_history :
    ∀ (history : List PyVal) (w : Nat) (t : ℚ),
      (check_and_alert_state history w t).2 = history ∧
      (check_and_alert_state history w t).1 = check_and_alert history w t := by
  intro history w t
  refine ⟨?_, ?_⟩ <;>
  · simp only [check_and_alert_state, check_and_alert, opLen, opSlice]
    by_cases h1 : history.length < w
    · simp [h1]
    · simp only [h1, if_false]
      cases hc : collectTemps (pySliceLast w history) with
      | error e => simp
      | ok temps =>
        by_cases h2 : temps.length < w
        · simp [h2]
        · by_cases h3 : temps.length = 0
          · simp only [h2, h3, if_false]
            split <;> rfl
          · simp [h2, h3]

/-- C6 (code bug): the regex in the source contains a double-encoded degree
sign, so on the spec's example line — with a real `°C` — the parser finds
no value, where the claim says it yields 75.0; the extraction works exactly
when the input contains the mojibake `Â°C`, and text without the label also
yields no value. -/
theorem C6_regex_mojibake :
    parse_cpu_temperatures "Package id 0: +75.0°C (high = +90.0°C, crit = +100.0°C)" = [] ∧
    parse_cpu_temperatures "Package id 0: +75.0Â°C (high = +90.0Â°C, crit = +100.0Â°C)" = [75] ∧
    parse_cpu_temperatures "everything nominal" = [] := by
  refine ⟨rfl, ?_, rfl⟩
  rw [show parse_cpu_temperatures
        "Package id 0: +75.0Â°C (high = +90.0Â°C, crit = +100.0Â°C)" =
      [capToRat (['7', '5'], Option.some ['0'])] from rfl]
  norm_num [capToRat, show digitsToNat ['7', '5'] = 75 from rfl,
    show digitsToNat ['0'] = 0 from rfl]

/-- C4 counterexample: with a parsable sensor reading but a loaded history
whose entries are numbers instead of objects, step 8 raises
`AttributeError` (`int` has no `.get`), so the invocation does not return
exit status 0. -/
theorem C4_counterexample :
    parse_cpu_temperatures exSensorMoji = [95] ∧
    main (Except.ok exSensorMoji) exBadHistory "ts" Option.none =
      Except.error PyErr.attributeError ∧
    main (Except.ok exSensorMoji) exBadHistory "ts" Option.none ≠ Except.ok 0 := by
  have hmain : main (Except.ok exSensorMoji) exBadHistory "ts" Option.none =
      Except.error PyErr.attributeError := rfl
  refine ⟨?_, hmain, fun hc => ?_⟩
  · rw [show parse_cpu_temperatures exSensorMoji =
        [capToRat (['9', '5'], Option.some ['0'])] from rfl]
    norm_num [capToRat, show digitsToNat ['9', '5'] = 95 from rfl,
      show digitsToNat ['0'] = 0 from rfl]
  · rw [hmain] at hc
    exact Except.noConfusion hc

/-- C4 amended: exit status 1 exactly when the sensor read fails, exit
status 2 exactly when no temperature is parsed from its output, and exit
status 0 whenever the sensor read succeeds and a temperature is parsed —
provided every entry of the loaded history is an object; a loaded entry
that is not an object instead raises `AttributeError` in the window
evaluation (step 8), failing the invocation. -/
theorem C4_exit_codes :
    ∀ (sensor : Except String String) (loaded : List PyVal) (ts : String)
      (writeFailure : Option String),
      (main sensor loaded ts writeFailure = Except.ok 1 ↔
        ∃ m, sensor = Except.error m) ∧
      (main sensor loaded ts writeFailure = Except.ok 2 ↔
        ∃ out, sensor = Except.ok out ∧ parse_cpu_temperatures out = []) ∧
      (∀ out, sensor = Except.ok out → parse_cpu_temperatures out ≠ [] →
        (∀ e ∈ loaded, isDict e = true) →
        main sensor loaded ts writeFailure = Except.ok 0) := by
  intro sensor loaded ts wf
  cases sensor with
  | error m =>
    refine ⟨?_, ?_, ?_⟩
    · simp [main]
    · simp [main]
    · intro out heq
      exact absurd heq (fun h => Except.noConfusion h)
  | ok out =>
    cases hp : parse_cpu_temperatures out with
    | nil =>
      refine ⟨?_, ?_, ?_⟩
      · simp [main, hp]
      · simp [main, hp]
      · intro out' heq hne _
        cases Except.ok.inj heq
        exact absurd hp hne
    | cons c rest =>
      have hdictall : (∀ e ∈ loaded, isDict e = true) →
          ∀ e ∈ persistedHistory loaded (mkObservation ts c), isDict e = true := by
        intro hd e he
        unfold persistedHistory at he
        rcases List.mem_append.mp (mem_truncateHistory he) with h | h
        · exact hd e h
        · rw [List.mem_singleton] at h
          subst h
          rfl
      cases hca : check_and_alert (persistedHistory loaded (mkObservation ts c))
          WINDOW_SIZE THRESHOLD with
      | error e =>
        refine ⟨?_, ?_, ?_⟩
        · simp [main, hp, hca]
        · simp [main, hp, hca]
        · intro out' heq hne hd
          cases Except.ok.inj heq
          obtain ⟨b, hb⟩ := check_and_alert_ok_of_dicts
            (persistedHistory loaded (mkObservation ts c)) WINDOW_SIZE THRESHOLD
            (by decide) (hdictall hd)
          rw [hca] at hb
          exact Except.noConfusion hb
      | ok b =>
        refine ⟨?_, ?_, ?_⟩
        · simp [main, hp, hca]
        · simp [main, hp, hca]
        · intro out' heq hne hd
          simp [main, hp, hca]

/-- C4 witness: the amended theorem at concrete inputs — a failing sensor
gives exit 1, unparsable output gives exit 2, and a parsable reading with
an all-object loaded history gives exit 0. -/
theorem C4_witness :
    main (Except.error "sensors missing") [] "ts" Option.none = Except.ok 1 ∧
    main (Except.ok "noise") [] "ts" Option.none = Except.ok 2 ∧
    main (Except.ok exSensorMoji) [] "ts" Option.none = Except.ok 0 := by
  refine ⟨?_, ?_, ?_⟩
  · exact (C4_exit_codes (Except.error "sensors missing") [] "ts" Option.none).1.mpr
      ⟨"sensors missing", rfl⟩
  · exact (C4_exit_codes (Except.ok "noise") [] "ts" Option.none).2.1.mpr
      ⟨"noise", rfl, rfl⟩
  · exact (C4_exit_codes (Except.ok exSensorMoji) [] "ts" Option.none).2.2 exSensorMoji rfl
      (fun h => List.noConfusion h) (by decide)

end CheckTemp
